import Mathlib

/-!
# Verification of the prebid-cache backend governance pipeline

Shallow embedding of the code under `src/`:

* `src/config/config.go` — the configuration data model, the viper defaults
  (`setConfigDefaults`) and the startup validators (`RequestLimits.validateAndLog`).
* `src/backends/config/config.go` — the backend factory (`newBaseBackend`),
  the decorator composition (`DecorateBackend`, `applyCompression`) and the
  TTL-ceiling resolver (`getMaxTTLSeconds`).
* `src/endpoints/routing/handler.go` — route registration for the public and
  administrative routers and the rate-limiting middleware
  (`handleRateLimiting`).

Go `int` fields are modelled as `Int` (configuration values are small and far
from the 64-bit overflow boundary, so wrap-around is immaterial for every
statement below).  `log.Fatalf` (process termination at startup) is modelled
as the `Except.error` branch of an `Except String` result.  External
collaborators (the concrete storage engines, the snappy codec, the tollbooth
limiter, the metrics sink) are kept abstract: the decorator chain is modelled
as a syntax tree recording which wrapper was applied in which order, and the
tollbooth wrapper is an abstract parameter of `handleRateLimiting`.
-/

namespace PrebidCache

/-! ## Configuration data model (`src/config/config.go`)

Only the fields consumed by the code under verification are carried; the
remaining connection settings (hosts, ports, credentials, TLS flags) are
opaque payload for the factory and are represented by the fields below that
the factory actually forwards. -/

/-- `config.Backend.type` tags (Go string constants `BackendCassandra` etc.;
their declarations live in the part of `config/config.go` outside `src/`, but
every use site in `src/` switches on these five literal tags). -/
def BackendCassandra : String := "cassandra"

def BackendMemory : String := "memory"

def BackendMemcache : String := "memcache"

def BackendAerospike : String := "aerospike"

def BackendRedis : String := "redis"

/-- `config.CompressionType` constant `CompressionNone = "none"`. -/
def CompressionNone : String := "none"

/-- `config.CompressionType` constant `CompressionSnappy = "snappy"`. -/
def CompressionSnappy : String := "snappy"

/-- `utils.CASSANDRA_DEFAULT_TTL_SECONDS`.  Modelled from the spec: the
`utils` package is not under `src/`; the spec fixes the hard-coded Cassandra
legacy ceiling at 2400 seconds. -/
def CASSANDRA_DEFAULT_TTL_SECONDS : Int := 2400

/-- `config.Aerospike` (the fields read by `src/`). -/
structure Aerospike where
  DefaultTTLSecs : Int
deriving Repr, DecidableEq

/-- `config.Cassandra` (opaque connection settings forwarded to the factory). -/
structure Cassandra where
  Hosts : String
  Keyspace : String
deriving Repr, DecidableEq

/-- `config.Memcache` (opaque connection settings forwarded to the factory). -/
structure Memcache where
  Hosts : List String
deriving Repr, DecidableEq

/-- `config.Redis` (the fields read by `src/`). -/
structure Redis where
  ExpirationMinutes : Int
deriving Repr, DecidableEq

/-- `config.Backend`: the backend-type tag plus per-backend substructures. -/
structure Backend where
  type : String
  Cassandra : Cassandra
  Memcache : Memcache
  Aerospike : Aerospike
  Redis : Redis
deriving Repr, DecidableEq

/-- `config.RequestLimits`. -/
structure RequestLimits where
  MaxSize : Int
  MaxNumValues : Int
  MaxTTLSeconds : Int
  AllowSettingKeys : Bool
deriving Repr, DecidableEq

/-- `config.RateLimiting`. -/
structure RateLimiting where
  Enabled : Bool
  MaxRequestsPerSecond : Int
deriving Repr, DecidableEq

/-- `config.Compression`. -/
structure Compression where
  type : String
deriving Repr, DecidableEq

/-- `config.Routes`. -/
structure Routes where
  AllowPublicWrite : Bool
deriving Repr, DecidableEq

/-- `config.Configuration` (the fields consumed by the verified core). -/
structure Configuration where
  Port : Int
  AdminPort : Int
  IndexResponse : String
  StatusResponse : String
  RateLimiting : RateLimiting
  RequestLimits : RequestLimits
  Backend : Backend
  Compression : Compression
  Routes : Routes
deriving Repr, DecidableEq

/-! ## TTL ceiling resolver (`src/backends/config/config.go`, `getMaxTTLSeconds`) -/

/-- `getMaxTTLSeconds`: starts from `cfg.RequestLimits.MaxTTLSeconds` and,
per backend type, replaces it by a backend-level candidate exactly when the
candidate is (guarded positive and) strictly smaller.  A Go `switch` over the
type tag is a sequence of string-equality tests. -/
def getMaxTTLSeconds (cfg : Configuration) : Int :=
  let maxTTLSeconds := cfg.RequestLimits.MaxTTLSeconds
  if cfg.Backend.type = BackendCassandra then
    if maxTTLSeconds > CASSANDRA_DEFAULT_TTL_SECONDS then
      CASSANDRA_DEFAULT_TTL_SECONDS
    else
      maxTTLSeconds
  else if cfg.Backend.type = BackendAerospike then
    if cfg.Backend.Aerospike.DefaultTTLSecs > 0 ∧
        maxTTLSeconds > cfg.Backend.Aerospike.DefaultTTLSecs then
      cfg.Backend.Aerospike.DefaultTTLSecs
    else
      maxTTLSeconds
  else if cfg.Backend.type = BackendRedis then
    if cfg.Backend.Redis.ExpirationMinutes > 0 ∧
        maxTTLSeconds > cfg.Backend.Redis.ExpirationMinutes * 60 then
      cfg.Backend.Redis.ExpirationMinutes * 60
    else
      maxTTLSeconds
  else
    maxTTLSeconds

/-- The TTL candidate list named by the claim: the global
`request_limits.max_ttl_seconds` plus, per backend type, the hard-coded
Cassandra ceiling, the Aerospike default TTL, or the Redis expiration
converted to seconds. -/
def ttlCandidates (cfg : Configuration) : List Int :=
  cfg.RequestLimits.MaxTTLSeconds ::
    (if cfg.Backend.type = BackendCassandra then [CASSANDRA_DEFAULT_TTL_SECONDS]
     else if cfg.Backend.type = BackendAerospike then [cfg.Backend.Aerospike.DefaultTTLSecs]
     else if cfg.Backend.type = BackendRedis then [cfg.Backend.Redis.ExpirationMinutes * 60]
     else [])

/-- The claimed resolution rule, transcribed from the spec: the minimum of
the non-zero candidates, and `0` when every candidate is zero. -/
def minNonZero (l : List Int) : Int :=
  match l.filter (fun x => x != 0) with
  | [] => 0
  | x :: xs => xs.foldl min x

/-- The amended resolution rule: the minimum of the non-zero candidates
applies only when the global `max_ttl_seconds` is itself non-zero; a global
of `0` (no ceiling) is returned unchanged for every backend type. -/
def resolveTTLCeilingSpec (cfg : Configuration) : Int :=
  if cfg.RequestLimits.MaxTTLSeconds = 0 then 0
  else minNonZero (ttlCandidates cfg)

/-! ## Decorator composition (`src/backends/config/config.go`)

The decorator constructors (`compression.SnappyCompress`,
`decorators.EnforceSizeLimit`, `decorators.LogMetrics`,
`decorators.LimitTTLs`) live outside `src/`; what `src/` fixes is which
wrapper is applied around which, in which order.  The chain is therefore
modelled as a syntax tree with one node per wrapper application (the metrics
sink passed to `LogMetrics` is immaterial to the chain shape and is not
carried). -/

/-- A (possibly decorated) backend: the raw engine, or one wrapper applied
around an inner backend. -/
inductive BackendChain
  | raw
  | snappyCompress (inner : BackendChain)
  | enforceSizeLimit (inner : BackendChain) (maxSize : Int)
  | logMetrics (inner : BackendChain)
  | limitTTLs (inner : BackendChain) (maxTTLSeconds : Int)
deriving Repr, DecidableEq

/-- `applyCompression`: `log.Fatalf` on an unknown compression type is the
`error` branch. -/
def applyCompression (cfg : Compression) (backend : BackendChain) :
    Except String BackendChain :=
  if cfg.type = CompressionNone then .ok backend
  else if cfg.type = CompressionSnappy then .ok (.snappyCompress backend)
  else .error ("Unknown compression type: " ++ cfg.type)

/-- `DecorateBackend`: compression, then the size limit (only when
`MaxSize > 0`), then metrics logging, then TTL limiting — each applied
around the previous result, so the last-applied wrapper is outermost. -/
def DecorateBackend (cfg : Configuration) (backend : BackendChain) :
    Except String BackendChain :=
  match applyCompression cfg.Compression backend with
  | .error e => .error e
  | .ok b1 =>
      let b2 :=
        if cfg.RequestLimits.MaxSize > 0 then
          BackendChain.enforceSizeLimit b1 cfg.RequestLimits.MaxSize
        else b1
      .ok (.limitTTLs (.logMetrics b2) (getMaxTTLSeconds cfg))

/-- The wrapper kinds, used to read a chain outermost-to-innermost. -/
inductive Layer
  | compression
  | sizeLimit
  | metricsLogging
  | ttlLimiting
  | raw
deriving Repr, DecidableEq

/-- The wrapper kinds of a chain, outermost first. -/
def layers : BackendChain → List Layer
  | .raw => [.raw]
  | .snappyCompress inner => .compression :: layers inner
  | .enforceSizeLimit inner _ => .sizeLimit :: layers inner
  | .logMetrics inner => .metricsLogging :: layers inner
  | .limitTTLs inner _ => .ttlLimiting :: layers inner

/-- The layers contributed by the compression stage: one wrapper for snappy,
none for the pass-through `none` codec. -/
def compressionLayers (cfg : Compression) : List Layer :=
  if cfg.type = CompressionSnappy then [.compression] else []

/-! ## Backend factory (`src/backends/config/config.go`, `newBaseBackend`)

`newBaseBackend` creates a `context.WithTimeout(…, 500ms)` context and then
dispatches on the backend-type tag.  The engine constructors live outside
`src/`; the factory is modelled as the constructor call it makes, recording
exactly the arguments the source passes — in particular whether the
timeout-carrying context is among them. -/

/-- The `context.WithTimeout` value created at the top of `newBaseBackend`. -/
structure TimeoutContext where
  timeoutMillis : Nat
deriving Repr, DecidableEq

/-- The constructor call `newBaseBackend` dispatches to, with the arguments
the source passes (the Aerospike constructor also receives the metrics
handle, which is immaterial here). -/
inductive BaseBackendCall
  | cassandraCall (c : Cassandra)
  | memoryCall
  | memcacheCall (c : Memcache)
  | aerospikeCall (c : Aerospike)
  | redisCall (c : Redis) (ctx : TimeoutContext)
deriving Repr, DecidableEq

/-- `newBaseBackend`: `log.Fatalf` on an unknown tag is the `error` branch;
only the Redis arm passes the timeout context `ctx`. -/
def newBaseBackend (cfg : Backend) : Except String BaseBackendCall :=
  let ctx : TimeoutContext := { timeoutMillis := 500 }
  if cfg.type = BackendCassandra then .ok (.cassandraCall cfg.Cassandra)
  else if cfg.type = BackendMemory then .ok .memoryCall
  else if cfg.type = BackendMemcache then .ok (.memcacheCall cfg.Memcache)
  else if cfg.type = BackendAerospike then .ok (.aerospikeCall cfg.Aerospike)
  else if cfg.type = BackendRedis then .ok (.redisCall cfg.Redis ctx)
  else .error ("Unknown backend type: " ++ cfg.type)

/-- The timeout context received by a constructor call, when it receives
one. -/
def timeoutContextArg : BaseBackendCall → Option TimeoutContext
  | .redisCall _ ctx => some ctx
  | _ => none

/-- The network-backed engine types named by the spec (everything but the
in-process memory map). -/
def networkBackedTypes : List String :=
  [BackendCassandra, BackendMemcache, BackendAerospike, BackendRedis]

/-! ## Startup validation (`src/config/config.go`) -/

/-- `RequestLimits.validateAndLog`: checks `max_ttl_seconds`,
`max_size_bytes` and `max_num_values` in that order, terminating the process
(`error`) on the first negative value. -/
def RequestLimits.validateAndLog (cfg : RequestLimits) : Except String Unit :=
  if 0 ≤ cfg.MaxTTLSeconds then
    if 0 ≤ cfg.MaxSize then
      if 0 ≤ cfg.MaxNumValues then .ok ()
      else .error "invalid config.request_limits.max_num_values: negative"
    else .error "invalid config.request_limits.max_size_bytes: negative"
  else .error "invalid config.request_limits.max_ttl_seconds: negative"

/-! ## Routing (`src/endpoints/routing/handler.go`)

The endpoint handlers are external collaborators; what `src/` fixes is which
(method, path) pairs each router registers.  A router is modelled as its
list of registered routes.  The CORS wrapper applied to the public handler
does not add or remove routes and is not carried. -/

/-- An HTTP method, as used by the route registrations in `src/`. -/
inductive Method
  | GET
  | POST
deriving Repr, DecidableEq

/-- A registered route: method and path. -/
structure Route where
  method : Method
  path : String
deriving Repr, DecidableEq

/-- `addReadRoutes`: the four GET routes registered on every router. -/
def addReadRoutes : List Route :=
  [{ method := .GET, path := "/" },
   { method := .GET, path := "/status" },
   { method := .GET, path := "/cache" },
   { method := .GET, path := "/version" }]

/-- `addWriteRoutes`: the POST /cache route. -/
def addWriteRoutes : List Route :=
  [{ method := .POST, path := "/cache" }]

/-- The routes registered by `NewAdminHandler`: read and write routes,
unconditionally. -/
def NewAdminHandlerRoutes (_cfg : Configuration) : List Route :=
  addReadRoutes ++ addWriteRoutes

/-- The routes registered by `NewPublicHandler`: read routes always, write
routes only when `cfg.Routes.AllowPublicWrite` is set. -/
def NewPublicHandlerRoutes (cfg : Configuration) : List Route :=
  addReadRoutes ++ (if cfg.Routes.AllowPublicWrite then addWriteRoutes else [])

/-! ## Rate limiting (`src/endpoints/routing/handler.go`, `handleRateLimiting`) -/

/-- The tollbooth limiter configuration built by `handleRateLimiting` when
rate limiting is enabled. -/
structure RateLimiterSpec where
  maxRequestsPerSecond : Int
  defaultExpirationTTLHours : Nat
  ipLookups : List String
  message : String
  messageContentType : String
deriving Repr, DecidableEq

/-- `handleRateLimiting` over an abstract handler type `H`: when disabled it
returns `next` itself; when enabled it wraps `next` with the (external)
tollbooth `LimitHandler`, modelled as the abstract `limitHandler`
parameter applied to the limiter configuration the source builds. -/
def handleRateLimiting {H : Type} (limitHandler : RateLimiterSpec → H → H)
    (next : H) (cfg : RateLimiting) : H :=
  if cfg.Enabled then
    limitHandler
      { maxRequestsPerSecond := cfg.MaxRequestsPerSecond
        defaultExpirationTTLHours := 1
        ipLookups := ["X-Forwarded-For", "X-Real-IP"]
        message := "\x7b \"error\": \"rate limit\" \x7d"
        messageContentType := "application/json" }
      next
  else next

/-! ## Configuration defaults (`src/config/config.go`, `setConfigDefaults`)

When no configuration file is found and nothing is overridden, `NewConfig`
unmarshals exactly the registered defaults.  The `utils` limit constants
referenced there are declared outside `src/`, so the defaults are modelled
as a function of those constants; the claims below only concern the four
literal defaults. -/

/-- The `utils` package limit constants referenced by `setConfigDefaults`
(declared outside `src/`; values immaterial to the claims). -/
structure UtilsDefaults where
  REDIS_DEFAULT_EXPIRATION_MINUTES : Int
  RATE_LIMITER_NUM_REQUESTS : Int
  REQUEST_MAX_SIZE_BYTES : Int
  REQUEST_MAX_NUM_VALUES : Int
  REQUEST_MAX_TTL_SECONDS : Int

/-- `setConfigDefaults`: the default `Configuration` produced when no
configuration file and no overrides are present, restricted to the modelled
fields. -/
def setConfigDefaults (u : UtilsDefaults) : Configuration :=
  { Port := 2424
    AdminPort := 2525
    IndexResponse := "This application stores short-term data for use in Prebid."
    StatusResponse := ""
    RateLimiting :=
      { Enabled := true, MaxRequestsPerSecond := u.RATE_LIMITER_NUM_REQUESTS }
    RequestLimits :=
      { MaxSize := u.REQUEST_MAX_SIZE_BYTES
        MaxNumValues := u.REQUEST_MAX_NUM_VALUES
        MaxTTLSeconds := u.REQUEST_MAX_TTL_SECONDS
        AllowSettingKeys := false }
    Backend :=
      { type := BackendMemory
        Cassandra := { Hosts := "", Keyspace := "" }
        Memcache := { Hosts := [] }
        Aerospike := { DefaultTTLSecs := 0 }
        Redis := { ExpirationMinutes := u.REDIS_DEFAULT_EXPIRATION_MINUTES } }
    Compression := { type := CompressionSnappy }
    Routes := { AllowPublicWrite := true } }

/-- A concrete configuration used as the base input of counterexamples and
witnesses (memory backend, snappy compression, all limits zero). -/
def baseConfig : Configuration :=
  { Port := 2424
    AdminPort := 2525
    IndexResponse := ""
    StatusResponse := ""
    RateLimiting := { Enabled := true, MaxRequestsPerSecond := 100 }
    RequestLimits :=
      { MaxSize := 0, MaxNumValues := 0, MaxTTLSeconds := 0, AllowSettingKeys := false }
    Backend :=
      { type := BackendMemory
        Cassandra := { Hosts := "", Keyspace := "" }
        Memcache := { Hosts := [] }
        Aerospike := { DefaultTTLSecs := 0 }
        Redis := { ExpirationMinutes := 0 } }
    Compression := { type := CompressionSnappy }
    Routes := { AllowPublicWrite := true } }

/-- A Cassandra-backed configuration with the global ceiling unset (0). -/
def cassandraNoGlobalConfig : Configuration :=
  { baseConfig with Backend := { baseConfig.Backend with type := BackendCassandra } }

/-- A Cassandra-backed configuration with a global ceiling of 3000 seconds. -/
def cassandraGlobal3000Config : Configuration :=
  { baseConfig with
    RequestLimits := { baseConfig.RequestLimits with MaxTTLSeconds := 3000 }
    Backend := { baseConfig.Backend with type := BackendCassandra } }

/-- A Redis-backed configuration with expiration 10 minutes and the global
ceiling unset (0). -/
def redisNoGlobalConfig : Configuration :=
  { baseConfig with
    Backend := { baseConfig.Backend with
      type := BackendRedis
      Redis := { ExpirationMinutes := 10 } } }

/-- A Redis-backed configuration with expiration 10 minutes and a global
ceiling of 3600 seconds. -/
def redisGlobal3600Config : Configuration :=
  { baseConfig with
    RequestLimits := { baseConfig.RequestLimits with MaxTTLSeconds := 3600 }
    Backend := { baseConfig.Backend with
      type := BackendRedis
      Redis := { ExpirationMinutes := 10 } } }

/-- The compression-type tags are distinct strings. -/
theorem CompressionSnappy_ne_none : CompressionSnappy ≠ CompressionNone := by decide

theorem CompressionNone_ne_snappy : CompressionNone ≠ CompressionSnappy := by decide

/-- The backend-type tags are pairwise distinct strings. -/
theorem BackendAerospike_ne_cassandra : BackendAerospike ≠ BackendCassandra := by decide

theorem BackendRedis_ne_cassandra : BackendRedis ≠ BackendCassandra := by decide

theorem BackendRedis_ne_aerospike : BackendRedis ≠ BackendAerospike := by decide

/-- `minNonZero` on a two-element list, as a full case table. -/
theorem minNonZero_pair (a b : Int) :
    minNonZero [a, b] =
      if a = 0 then (if b = 0 then 0 else b)
      else if b = 0 then a else min a b := by
  by_cases ha : a = 0 <;> by_cases hb : b = 0 <;>
    simp [minNonZero, List.filter_cons, List.filter_nil, bne_iff_ne, ha, hb,
      List.foldl_cons, List.foldl_nil]

/-- `minNonZero` on a one-element list. -/
theorem minNonZero_single (a : Int) : minNonZero [a] = a := by
  by_cases ha : a = 0 <;>
    simp [minNonZero, List.filter_cons, List.filter_nil, bne_iff_ne, ha]

/-- C1 counterexample: with a Cassandra backend and `max_ttl_seconds = 0`,
the non-zero candidates are exactly the hard-coded 2400-second ceiling, so
the claimed rule yields 2400, but `getMaxTTLSeconds` returns 0: the resolver
is not the minimum of the non-zero candidates. -/
theorem getMaxTTLSeconds_not_minNonZero :
    getMaxTTLSeconds cassandraNoGlobalConfig = 0 ∧
      minNonZero (ttlCandidates cassandraNoGlobalConfig) = 2400 ∧
      getMaxTTLSeconds cassandraNoGlobalConfig ≠
        minNonZero (ttlCandidates cassandraNoGlobalConfig) := by
  refine ⟨rfl, rfl, ?_⟩
  decide

/-- C1 (amended): for non-negative configured values, `getMaxTTLSeconds`
returns the minimum of the non-zero candidates whenever the global
`request_limits.max_ttl_seconds` is itself non-zero, and returns 0 (no
ceiling) whenever the global value is 0, regardless of the backend-level
candidates. -/
theorem getMaxTTLSeconds_eq_resolveTTLCeilingSpec (cfg : Configuration)
    (hg : 0 ≤ cfg.RequestLimits.MaxTTLSeconds)
    (ha : 0 ≤ cfg.Backend.Aerospike.DefaultTTLSecs)
    (hr : 0 ≤ cfg.Backend.Redis.ExpirationMinutes) :
    getMaxTTLSeconds cfg = resolveTTLCeilingSpec cfg := by
  by_cases hc : cfg.Backend.type = BackendCassandra
  · simp [getMaxTTLSeconds, resolveTTLCeilingSpec, ttlCandidates, hc,
      minNonZero_pair, CASSANDRA_DEFAULT_TTL_SECONDS, min_def]
    split_ifs <;> omega
  · by_cases hae : cfg.Backend.type = BackendAerospike
    · simp [getMaxTTLSeconds, resolveTTLCeilingSpec, ttlCandidates, hae,
        BackendAerospike_ne_cassandra, minNonZero_pair, min_def]
      split_ifs <;> omega
    · by_cases hre : cfg.Backend.type = BackendRedis
      · simp [getMaxTTLSeconds, resolveTTLCeilingSpec, ttlCandidates, hre,
          BackendRedis_ne_cassandra, BackendRedis_ne_aerospike,
          minNonZero_pair, min_def]
        split_ifs <;> omega
      · simp [getMaxTTLSeconds, resolveTTLCeilingSpec, ttlCandidates, hc, hae, hre,
          minNonZero_single]
        split_ifs <;> omega

/-- C1 witness: a Cassandra backend with a global ceiling of 3000 resolves,
by the amended rule, to `minNonZero [3000, 2400] = 2400`. -/
theorem getMaxTTLSeconds_eq_resolveTTLCeilingSpec_witness :
    getMaxTTLSeconds cassandraGlobal3000Config =
      resolveTTLCeilingSpec cassandraGlobal3000Config :=
  getMaxTTLSeconds_eq_resolveTTLCeilingSpec _ (by decide) (by decide) (by decide)

/-- C2 counterexample: with a Redis backend, expiration = 10 minutes and the
global ceiling unset (0), `getMaxTTLSeconds` returns 0, not the claimed 600:
the Redis expiration never applies when the global ceiling is 0. -/
theorem getMaxTTLSeconds_redisNoGlobal_ne_600 :
    getMaxTTLSeconds redisNoGlobalConfig = 0 ∧
      getMaxTTLSeconds redisNoGlobalConfig ≠ 600 := by
  refine ⟨rfl, ?_⟩
  decide

/-- C2 (amended): for a Redis backend with a positive configured expiration,
the resolver converts it to seconds by multiplying by 60 and compares it
against the global ceiling, but only a positive global ceiling is lowered:
with a positive global the result is the minimum of the global and the
converted expiration, and with the global unset (0) the result is 0. -/
theorem getMaxTTLSeconds_redis_conversion (cfg : Configuration)
    (ht : cfg.Backend.type = BackendRedis)
    (he : 0 < cfg.Backend.Redis.ExpirationMinutes) :
    (0 < cfg.RequestLimits.MaxTTLSeconds →
        getMaxTTLSeconds cfg =
          min cfg.RequestLimits.MaxTTLSeconds
            (cfg.Backend.Redis.ExpirationMinutes * 60)) ∧
      (cfg.RequestLimits.MaxTTLSeconds = 0 → getMaxTTLSeconds cfg = 0) := by
  constructor <;> intro hm
  · simp [getMaxTTLSeconds, ht, BackendRedis_ne_cassandra, BackendRedis_ne_aerospike,
      min_def]
    split_ifs <;> omega
  · simp [getMaxTTLSeconds, ht, hm, BackendRedis_ne_cassandra,
      BackendRedis_ne_aerospike]
    omega

/-- C2 witness: a Redis backend with a global ceiling of 3600 and an
expiration of 10 minutes resolves to `min 3600 600 = 600`. -/
theorem getMaxTTLSeconds_redis_conversion_witness :
    getMaxTTLSeconds redisGlobal3600Config = min (3600 : Int) (10 * 60) :=
  (getMaxTTLSeconds_redis_conversion redisGlobal3600Config rfl (by decide)).1
    (by decide)

/-- C7: the resolver only tightens the configured global limit: whenever
`request_limits.max_ttl_seconds` is positive, the resolved ceiling is at most
that global value, for every backend type. -/
theorem getMaxTTLSeconds_le_global (cfg : Configuration)
    (h : 0 < cfg.RequestLimits.MaxTTLSeconds) :
    getMaxTTLSeconds cfg ≤ cfg.RequestLimits.MaxTTLSeconds := by
  simp only [getMaxTTLSeconds, CASSANDRA_DEFAULT_TTL_SECONDS]
  split_ifs <;> omega

/-- C7 witness: with a Cassandra backend and a positive global ceiling of
3000, the resolved ceiling does not exceed 3000. -/
theorem getMaxTTLSeconds_le_global_witness :
    getMaxTTLSeconds cassandraGlobal3000Config ≤ 3000 :=
  getMaxTTLSeconds_le_global cassandraGlobal3000Config (by decide)

/-- C3: for every configuration with a recognized compression type and every
raw backend, `DecorateBackend` succeeds and produces the chain whose
execution order, outermost to innermost, is TTLLimiting, MetricsLogging,
SizeLimit (exactly when a positive size ceiling is configured), the
compression stage, then the wrapped backend. -/
theorem DecorateBackend_layer_order (cfg : Configuration) (backend : BackendChain)
    (h : cfg.Compression.type = CompressionNone ∨
      cfg.Compression.type = CompressionSnappy) :
    ∃ d, DecorateBackend cfg backend = .ok d ∧
      layers d =
        [Layer.ttlLimiting, Layer.metricsLogging] ++
          (if cfg.RequestLimits.MaxSize > 0 then [Layer.sizeLimit] else []) ++
          compressionLayers cfg.Compression ++ layers backend := by
  rcases h with h | h <;>
    by_cases hs : cfg.RequestLimits.MaxSize > 0 <;>
      simp [DecorateBackend, applyCompression, compressionLayers, layers, h, hs,
        CompressionSnappy_ne_none, CompressionNone_ne_snappy]

/-- C3 witness: with snappy compression and a size ceiling of 256 bytes, the
decorated chain reads TTLLimiting, MetricsLogging, SizeLimit, Compression,
raw backend. -/
theorem DecorateBackend_layer_order_witness :
    ∃ d,
      DecorateBackend
          { baseConfig with
            RequestLimits := { baseConfig.RequestLimits with MaxSize := 256 } }
          BackendChain.raw = .ok d ∧
        layers d =
          [Layer.ttlLimiting, Layer.metricsLogging] ++
            (if ({ baseConfig with
                RequestLimits := { baseConfig.RequestLimits with
                  MaxSize := 256 } } : Configuration).RequestLimits.MaxSize > 0 then
              [Layer.sizeLimit] else []) ++
            compressionLayers baseConfig.Compression ++ layers BackendChain.raw :=
  DecorateBackend_layer_order _ BackendChain.raw (Or.inr rfl)

/-- C9: when `max_size_bytes` is 0, `DecorateBackend` installs no SizeLimit
wrapper at all: the added layers are exactly TTLLimiting, MetricsLogging and
the compression stage, and none of them is the SizeLimit wrapper. -/
theorem DecorateBackend_maxSize_zero_no_sizeLimit (cfg : Configuration)
    (backend : BackendChain) (h0 : cfg.RequestLimits.MaxSize = 0)
    (h : cfg.Compression.type = CompressionNone ∨
      cfg.Compression.type = CompressionSnappy) :
    ∃ d, DecorateBackend cfg backend = .ok d ∧
      layers d =
        [Layer.ttlLimiting, Layer.metricsLogging] ++
          compressionLayers cfg.Compression ++ layers backend ∧
      Layer.sizeLimit ∉
        [Layer.ttlLimiting, Layer.metricsLogging] ++ compressionLayers cfg.Compression := by
  rcases h with h | h <;>
    simp [DecorateBackend, applyCompression, compressionLayers, layers, h, h0,
      CompressionSnappy_ne_none, CompressionNone_ne_snappy]

/-- C9 witness: the memory-backed base configuration (size ceiling 0, snappy
compression) yields the chain TTLLimiting, MetricsLogging, Compression, raw
backend, with no SizeLimit stage. -/
theorem DecorateBackend_maxSize_zero_no_sizeLimit_witness :
    ∃ d, DecorateBackend baseConfig BackendChain.raw = .ok d ∧
      layers d =
        [Layer.ttlLimiting, Layer.metricsLogging] ++
          compressionLayers baseConfig.Compression ++ layers BackendChain.raw ∧
      Layer.sizeLimit ∉
        [Layer.ttlLimiting, Layer.metricsLogging] ++
          compressionLayers baseConfig.Compression :=
  DecorateBackend_maxSize_zero_no_sizeLimit baseConfig BackendChain.raw rfl (Or.inr rfl)

/-- C5: the three startup-validation steps terminate the process exactly in
the ConfigurationFatal cases — `RequestLimits.validateAndLog` succeeds iff
none of `max_ttl_seconds`, `max_size_bytes`, `max_num_values` is negative;
`applyCompression` succeeds iff the compression type is `none` or `snappy`;
`newBaseBackend` succeeds iff the backend-type tag is one of the five
recognized tags. -/
theorem startupValidation_fatal_iff (rl : RequestLimits) (comp : Compression)
    (b : BackendChain) (bcfg : Backend) :
    (RequestLimits.validateAndLog rl = .ok () ↔
        0 ≤ rl.MaxTTLSeconds ∧ 0 ≤ rl.MaxSize ∧ 0 ≤ rl.MaxNumValues) ∧
      ((∃ c, applyCompression comp b = .ok c) ↔
        comp.type = CompressionNone ∨ comp.type = CompressionSnappy) ∧
      ((∃ call, newBaseBackend bcfg = .ok call) ↔
        bcfg.type ∈ [BackendCassandra, BackendMemory, BackendMemcache,
          BackendAerospike, BackendRedis]) := by
  refine ⟨?_, ?_, ?_⟩
  · unfold RequestLimits.validateAndLog
    split_ifs <;> simp_all
  · by_cases hn : comp.type = "none" <;>
      by_cases hs : comp.type = "snappy" <;>
        simp [applyCompression, hn, hs, CompressionNone, CompressionSnappy]
  · by_cases h1 : bcfg.type = "cassandra" <;>
      by_cases h2 : bcfg.type = "memory" <;>
        by_cases h3 : bcfg.type = "memcache" <;>
          by_cases h4 : bcfg.type = "aerospike" <;>
            by_cases h5 : bcfg.type = "redis" <;>
              simp [newBaseBackend, h1, h2, h3, h4, h5, BackendCassandra,
                BackendMemory, BackendMemcache, BackendAerospike, BackendRedis]

/-- C8 counterexample: Cassandra is a network-backed engine type, yet
`newBaseBackend` invokes its constructor without the 500ms timeout context
(the context is created but not among the call's arguments). -/
theorem newBaseBackend_cassandra_no_timeoutContext :
    BackendCassandra ∈ networkBackedTypes ∧
      newBaseBackend cassandraNoGlobalConfig.Backend =
        .ok (.cassandraCall cassandraNoGlobalConfig.Backend.Cassandra) ∧
      timeoutContextArg
          (.cassandraCall cassandraNoGlobalConfig.Backend.Cassandra) = none := by
  exact ⟨by decide, rfl, rfl⟩

/-- C8 (amended): the 500ms timeout context created by `newBaseBackend` is
supplied only to the Redis constructor; the Cassandra, Memcache and
Aerospike constructors are invoked without it. -/
theorem newBaseBackend_timeoutContext_only_redis (cfg : Backend) :
    (cfg.type = BackendRedis →
        newBaseBackend cfg = .ok (.redisCall cfg.Redis { timeoutMillis := 500 })) ∧
      (cfg.type = BackendCassandra ∨ cfg.type = BackendMemcache ∨
          cfg.type = BackendAerospike →
        ∃ call, newBaseBackend cfg = .ok call ∧ timeoutContextArg call = none) := by
  constructor
  · intro h
    simp [newBaseBackend, h, BackendRedis, BackendCassandra, BackendMemory,
      BackendMemcache, BackendAerospike]
  · rintro (h | h | h) <;>
      simp [newBaseBackend, h, BackendRedis, BackendCassandra, BackendMemory,
        BackendMemcache, BackendAerospike, timeoutContextArg]

/-- C8 witness: a Redis-typed backend configuration is constructed with the
500ms timeout context. -/
theorem newBaseBackend_timeoutContext_only_redis_witness :
    newBaseBackend redisNoGlobalConfig.Backend =
      .ok (.redisCall redisNoGlobalConfig.Backend.Redis { timeoutMillis := 500 }) :=
  (newBaseBackend_timeoutContext_only_redis redisNoGlobalConfig.Backend).1 rfl

/-- C4: the public router registers POST /cache iff `allow_public_write` is
set, and always registers every read route; the administrative router
registers POST /cache and every read route unconditionally. -/
theorem publicWriteRoute_iff_allowPublicWrite (cfg : Configuration) :
    (({ method := .POST, path := "/cache" } : Route) ∈ NewPublicHandlerRoutes cfg ↔
        cfg.Routes.AllowPublicWrite = true) ∧
      (∀ r ∈ addReadRoutes, r ∈ NewPublicHandlerRoutes cfg) ∧
      ({ method := .POST, path := "/cache" } : Route) ∈ NewAdminHandlerRoutes cfg ∧
      (∀ r ∈ addReadRoutes, r ∈ NewAdminHandlerRoutes cfg) := by
  cases hw : cfg.Routes.AllowPublicWrite <;>
    simp [NewPublicHandlerRoutes, NewAdminHandlerRoutes, hw] <;>
    decide

/-- C4 witness: with public writes disabled, the write route is absent from
the public router and present on the administrative router. -/
theorem publicWriteRoute_iff_allowPublicWrite_witness :
    ¬(({ method := .POST, path := "/cache" } : Route) ∈
        NewPublicHandlerRoutes { baseConfig with
          Routes := { AllowPublicWrite := false } }) ∧
      ({ method := .POST, path := "/cache" } : Route) ∈
        NewAdminHandlerRoutes { baseConfig with
          Routes := { AllowPublicWrite := false } } := by
  have h := publicWriteRoute_iff_allowPublicWrite
    { baseConfig with Routes := { AllowPublicWrite := false } }
  exact ⟨fun hm => by simpa using h.1.mp hm, h.2.2.1⟩

/-- C6: when rate limiting is disabled in configuration,
`handleRateLimiting` returns the inner handler itself, unchanged, for every
inner handler and every model of the tollbooth wrapper. -/
theorem handleRateLimiting_disabled_identity {H : Type}
    (limitHandler : RateLimiterSpec → H → H) (next : H) (cfg : RateLimiting)
    (h : cfg.Enabled = false) :
    handleRateLimiting limitHandler next cfg = next := by
  simp [handleRateLimiting, h]

/-- C6 witness: with the limiter disabled, a wrapper that would change every
handler is never applied. -/
theorem handleRateLimiting_disabled_identity_witness :
    handleRateLimiting (fun _ n => n + 1) (0 : Nat)
      { Enabled := false, MaxRequestsPerSecond := 100 } = 0 :=
  handleRateLimiting_disabled_identity (fun _ n => n + 1) 0
    { Enabled := false, MaxRequestsPerSecond := 100 } rfl

/-- C10: for every value of the external limit constants, the default
configuration (no file, no overrides) enables rate limiting, allows public
writes, selects snappy compression and selects the in-memory backend. -/
theorem setConfigDefaults_values (u : UtilsDefaults) :
    (setConfigDefaults u).RateLimiting.Enabled = true ∧
      (setConfigDefaults u).Routes.AllowPublicWrite = true ∧
      (setConfigDefaults u).Compression.type = CompressionSnappy ∧
      (setConfigDefaults u).Backend.type = BackendMemory :=
  ⟨rfl, rfl, rfl, rfl⟩

end PrebidCache
